import Mathlib

/-!
Shallow embedding of the screen-recording core of
`src/SeleniumLibrary/keywords/screenshot.py`.

The embedded functions are:
* `_get_screenshot_path`, `_get_video_image_path`, `_get_video_path`
  (path allocation: a search loop over candidate indices, with two
  process-wide counters `g_screenshots_index` and `g_video_index` and one
  per-call local counter);
* `capture_screenshots` (keyword "Screen Record Start": registry append and
  handle assignment);
* the body of one iteration of `_loop_capture_screenshots` (the capture
  loop);
* `stop_recording_and_save_to_mp4` (keyword "Screen Record Stop":
  validation, bounded wait for the `finished` flag, fps computation and the
  frame-writing loop of the assembly branch).

Modelling conventions:
* Machine time is `ℚ` (Python floats hold time differences; the claims
  only need exact arithmetic on small values).
* Python `int()` truncation towards zero is `pyInt`.
* The file system, the browser driver, the image reader and the Robot log
  are external collaborators; they enter as explicit oracle parameters
  (`fsExists : String → Bool`, capture outcomes, `imageSize`), and log
  calls are recorded as the list of formatted messages.
* The concurrent `finished` flag of a session, as observed by the stop
  keyword's polling loop, is modelled as the function `finishedAt` from the
  poll number to the flag value; `elapsedSeconds` and `framePaths` carry
  the values the stop keyword reads once the wait is over.
* `os.sep` is fixed to `/`, making the `filename.replace('/', os.sep)`
  call of the source the identity, and `os.path.join` is string
  concatenation with a `/` separator.
* The unbounded `while True` search loops of the path allocator take an
  explicit fuel argument; the source loops without bound.
-/

namespace Screenshot

/-- A filename template: the raw string plus the substitution function
`subst k`, modelling Python `filename.format(index=k)`.  A template with no
replacement field has `subst k = raw` (formatting leaves it unchanged),
which is exactly the equality test the source uses to detect that case. -/
structure Template where
  raw : String
  subst : ℕ → String

/-- `os.path.join(directory, formatted)` with `os.sep` fixed to `/`. -/
def joinPath (dir f : String) : String := dir ++ "/" ++ f

/-- The `while True` search loop shared by `_get_screenshot_path`,
`_get_video_image_path` and `_get_video_path`: increment the counter,
format, and return as soon as the formatted name equals the template
(no placeholder) or the joined path does not exist.  Returns the path
together with the counter value that produced it. -/
def nextPathFrom (dir : String) (t : Template) (fsExists : String → Bool) :
    ℕ → ℕ → Option (String × ℕ)
  | _, 0 => none
  | counter, fuel + 1 =>
    let k := counter + 1
    let formatted := t.subst k
    let path := joinPath dir formatted
    if formatted = t.raw ∨ fsExists path = false then some (path, k)
    else nextPathFrom dir t fsExists k fuel

/-- The two process-wide counters of the source, `g_screenshots_index` and
`g_video_index`; `none` models the global name not yet being defined (the
`try ... except NameError` initialisation sets it to `0` on first use). -/
structure AllocState where
  gScreenshotsIndex : Option ℕ
  gVideoIndex : Option ℕ

/-- `_get_screenshot_path`: the counter is the LOCAL variable `index = 0`
of each call, so the search always restarts at 1 and the process-wide state
is untouched. -/
def get_screenshot_path (dir : String) (t : Template) (fsExists : String → Bool)
    (fuel : ℕ) (st : AllocState) : Option (String × ℕ) × AllocState :=
  (nextPathFrom dir t fsExists 0 fuel, st)

/-- `_get_video_image_path`: the counter is the global `g_screenshots_index`
(initialised to 0 on first use), left at the value that produced the
returned path. -/
def get_video_image_path (dir : String) (t : Template) (fsExists : String → Bool)
    (fuel : ℕ) (st : AllocState) : Option (String × ℕ) × AllocState :=
  match nextPathFrom dir t fsExists (st.gScreenshotsIndex.getD 0) fuel with
  | some (p, k) => (some (p, k), { st with gScreenshotsIndex := some k })
  | none => (none, st)

/-- `_get_video_path`: the counter is the global `g_video_index`. -/
def get_video_path (dir : String) (t : Template) (fsExists : String → Bool)
    (fuel : ℕ) (st : AllocState) : Option (String × ℕ) × AllocState :=
  match nextPathFrom dir t fsExists (st.gVideoIndex.getD 0) fuel with
  | some (p, k) => (some (p, k), { st with gVideoIndex := some k })
  | none => (none, st)

/-- One entry of `screen_video_queue`: `[elapsed, recording, paths, finished]`.
`finishedAt k` is the value of slot `[3]` as observed at the `k`-th poll of
the stop keyword's wait loop; `elapsedSeconds` and `framePaths` are the
slot `[0]` and `[2]` values the stop keyword reads after the wait. -/
structure Session where
  elapsedSeconds : ℚ
  recording : Bool
  framePaths : List String
  finishedAt : ℕ → Bool

/-- The entry appended by `Screen Record Start`:
`[0, True, [], False]`. -/
def initialSession : Session :=
  { elapsedSeconds := 0, recording := true, framePaths := [],
    finishedAt := fun _ => false }

/-- Result of `capture_screenshots` (keyword "Screen Record Start"). -/
structure StartOutcome where
  registry : List Session
  handle : ℕ
  logs : List String

/-- `capture_screenshots`: initialise `screen_video_queue` to `[]` if the
global is undefined, append a fresh entry, log and return its index.  The
source performs NO browser-attachment check (unlike
`capture_page_screenshot`); the `browserAttached` parameter records the
environment condition the specification quantifies over and is unused. -/
def capture_screenshots (registry : Option (List Session))
    (browserAttached : Bool) : StartOutcome :=
  let q := registry.getD []
  let q' := q ++ [initialSession]
  { registry := q', handle := q'.length - 1,
    logs := ["start screen record with index : " ++ toString (q'.length - 1)] }

/-- `n` sequential `Screen Record Start` calls from process start (global
registry undefined), collecting the returned handles in call order. -/
def startN : ℕ → Option (List Session) × List ℕ
  | 0 => (none, [])
  | n + 1 =>
    let r := startN n
    let o := capture_screenshots r.1 true
    (some o.registry, r.2 ++ [o.handle])

/-- The registry after `n` sequential start calls (`[]` while the global
is still undefined). -/
def regN (n : ℕ) : List Session := (startN n).1.getD []

/-- Python `int()` applied to a rational value: truncation towards zero. -/
def pyInt (q : ℚ) : ℤ := if q < 0 then Rat.ceil q else Rat.floor q

/-- The fps computation of the assembly branch:
`fps = int(len(paths) / elapsed); if fps < 1 or len(paths) < 5: fps = 1`. -/
def computeFps (numFrames : ℕ) (elapsed : ℚ) : ℤ :=
  let fps := pyInt ((numFrames : ℚ) / elapsed)
  if fps < 1 ∨ numFrames < 5 then 1 else fps

/-- The frames handed to `videoWriter.write` by the assembly branch, in
order: `for i in range(1, len(paths)): write(imread(paths[i]))`.  Note the
loop starts at 1: `paths[0]` is read only for its dimensions. -/
def framesWritten (framePaths : List String) : List String :=
  (List.range' 1 (framePaths.length - 1)).map fun i => framePaths.getD i ""

/-- The wait loop of the stop keyword:
`count = 0; while not finished: sleep(1); count += 1; if count == 5: return`.
`waitFrom f count remaining` polls `f count`; on success it returns the
number of sleeps performed (the final `count`), on exhaustion `none`. -/
def waitFrom (finishedAt : ℕ → Bool) : ℕ → ℕ → Option ℕ
  | _, 0 => none
  | count, remaining + 1 =>
    if finishedAt count then some count
    else waitFrom finishedAt (count + 1) remaining

/-- The full wait: at most 5 sleeps, polls at counts `0, 1, 2, 3, 4`. -/
def waitFinished (finishedAt : ℕ → Bool) : Option ℕ := waitFrom finishedAt 0 5

/-- Outcome of `stop_recording_and_save_to_mp4`.  The `raised` constructors
are the exceptions escaping to the caller; `timedOut` is the early return
after 5 polls; `skipped` and `wrote` are the normal returns without and
with video assembly (`wrote` carries the sleeps waited, output path, fps,
`size = (width, height)` of the first frame, and the frames written). -/
inductive StopResult where
  | raisedQueueNotInit : StopResult
  | raisedInvalidIndex : StopResult
  | raisedIndexError : StopResult
  | timedOut : StopResult
  | skipped (waited : ℕ) : StopResult
  | wrote (waited : ℕ) (path : String) (fps : ℤ) (size : ℕ × ℕ)
      (frames : List String) : StopResult
  deriving DecidableEq

/-- What the post-validation part of the stop keyword produces: the result,
the number of `time.sleep(1)` calls, the number of polls of the `finished`
flag, and the log messages emitted. -/
structure StopCoreOut where
  result : StopResult
  sleeps : ℕ
  polls : ℕ
  logs : List String

/-- The body of `stop_recording_and_save_to_mp4` after validation: log,
wait (bounded) for `finished`, then either give up, skip assembly when
`elapsed == 0` or no frames were captured, or assemble the video.
`imageSize` models `cv2.imread(paths[0]).shape` giving `(width, height)`;
`videoPath` is the path `_get_video_path` allocates (the allocator itself
is modelled separately). -/
def stopCore (imageSize : String → ℕ × ℕ) (handle : ℤ) (s : Session)
    (videoPath : String) : StopCoreOut :=
  let log0 := ["stop screen record and save with index : " ++ toString handle]
  match waitFinished s.finishedAt with
  | none =>
    { result := .timedOut, sleeps := 5, polls := 5,
      logs := log0 ++
        ["screenshots for index " ++ toString handle ++ " cannot stop"] }
  | some w =>
    let logs1 := log0 ++
      ["wait " ++ toString w ++ " seconds util finishing record",
       "video record time " ++ toString s.elapsedSeconds ++
         ", length of picture list " ++ toString s.framePaths.length]
    if s.elapsedSeconds ≠ 0 ∧ 0 < s.framePaths.length then
      { result := .wrote w videoPath
          (computeFps s.framePaths.length s.elapsedSeconds)
          (imageSize (s.framePaths.headD ""))
          (framesWritten s.framePaths),
        sleeps := w, polls := w + 1,
        logs := logs1 ++ ["write file done for index : " ++ toString handle] }
    else
      { result := .skipped w, sleeps := w, polls := w + 1, logs := logs1 }

/-- Python list subscription `l[i]` with negative-index semantics:
`l[i]` is `l[len(l) + i]` for `i < 0`; `none` models `IndexError`. -/
def pyGet {α : Type _} (l : List α) (i : ℤ) : Option α :=
  if i < 0 then
    if (l.length : ℤ) + i < 0 then none
    else l.get? ((l.length : ℤ) + i).toNat
  else l.get? i.toNat

/-- The non-negative position a Python index `i` resolves to in a list of
length `len`. -/
def pyIdx (len : ℕ) (i : ℤ) : ℕ :=
  if i < 0 then ((len : ℤ) + i).toNat else i.toNat

/-- Result of a full `stop_recording_and_save_to_mp4` call: the registry
after the call (the target entry's `recording` slot set to `False` when
validation passed) plus the core outcome. -/
structure StopOutcome where
  registry : Option (List Session)
  result : StopResult
  sleeps : ℕ
  polls : ℕ
  logs : List String

/-- `stop_recording_and_save_to_mp4`: raise if the global queue is
undefined; raise if the handle is `None` or `int(handle) >= len(queue)`;
resolve the entry Python-style (an out-of-range negative handle raises
`IndexError` at the `queue[index][1] = False` assignment, before any wait);
otherwise flip the entry's `recording` slot and run the wait/assembly
core. -/
def stop_recording_and_save_to_mp4 (imageSize : String → ℕ × ℕ)
    (registry : Option (List Session)) (handle : Option ℤ)
    (videoPath : String) : StopOutcome :=
  match registry with
  | none =>
    { registry := none, result := .raisedQueueNotInit,
      sleeps := 0, polls := 0, logs := [] }
  | some q =>
    match handle with
    | none =>
      { registry := some q, result := .raisedInvalidIndex,
        sleeps := 0, polls := 0, logs := [] }
    | some h =>
      if (q.length : ℤ) ≤ h then
        { registry := some q, result := .raisedInvalidIndex,
          sleeps := 0, polls := 0, logs := [] }
      else
        match pyGet q h with
        | none =>
          { registry := some q, result := .raisedIndexError,
            sleeps := 0, polls := 0, logs := [] }
        | some s =>
          let q' := q.set (pyIdx q.length h) { s with recording := false }
          let c := stopCore imageSize h s videoPath
          { registry := some q', result := c.result,
            sleeps := c.sleeps, polls := c.polls, logs := c.logs }

/-- Outcome of one capture attempt inside `_loop_capture_screenshots`:
either some statement of the `try` block raised (`raised`), or
`driver.save_screenshot(path)` returned `ok`. -/
inductive CaptureAttempt where
  | raised : CaptureAttempt
  | returned (ok : Bool) : CaptureAttempt

/-- The mutable state one iteration of the capture loop touches: the
session slots it writes, the log messages emitted and the number of
`time.sleep(1)` calls performed. -/
structure LoopState where
  elapsedSeconds : ℚ
  recording : Bool
  framePaths : List String
  logs : List String
  sleeps : ℕ

/-- One iteration of the `while screen_video_queue[index][1]` body of
`_loop_capture_screenshots`: on an exception, log and sleep; otherwise
append the path when the capture returned `True` and unconditionally set
`elapsed = time.time() - start_time`.  `path` is the frame path the
iteration's `_get_video_image_path` call produced. -/
def loop_capture_step (nowTime startTime : ℚ) (path : String)
    (attempt : CaptureAttempt) (st : LoopState) : LoopState :=
  match attempt with
  | .raised =>
    { st with
      logs := st.logs ++ ["Cannot capture screenshots"],
      sleeps := st.sleeps + 1 }
  | .returned ok =>
    { st with
      framePaths := if ok then st.framePaths ++ [path] else st.framePaths,
      elapsedSeconds := nowTime - startTime }

/-! Concrete instances used by witnesses and counterexamples. -/

/-- A constant image-size oracle. -/
def isz0 : String → ℕ × ℕ := fun _ => (64, 48)

/-- A file system on which no path exists. -/
def fsNone : String → Bool := fun _ => false

/-- A file system on which exactly `d/s1.png` and `d/s2.png` exist. -/
def fsTwo : String → Bool := fun p => p == "d/s1.png" || p == "d/s2.png"

/-- A template without a placeholder: formatting never changes it. -/
def tplPlain : Template := { raw := "shot.png", subst := fun _ => "shot.png" }

/-- A template with a placeholder, `s{index}.png`. -/
def tplIndexed : Template :=
  { raw := "s{index}.png", subst := fun k => "s" ++ toString k ++ ".png" }

/-- The uninitialised allocator state (neither global defined yet). -/
def allocInit : AllocState := { gScreenshotsIndex := none, gVideoIndex := none }

/-- Six frame paths, the end-to-end scenario of the specification. -/
def sixFrames : List String :=
  ["f1.png", "f2.png", "f3.png", "f4.png", "f5.png", "f6.png"]

/-- A session with 6 captured frames over 3 time units whose loop has
already acknowledged the stop. -/
def sessionSix : Session :=
  { elapsedSeconds := 3, recording := true, framePaths := sixFrames,
    finishedAt := fun _ => true }

/-- A session that finished immediately with nothing captured. -/
def cexSession : Session :=
  { elapsedSeconds := 0, recording := true, framePaths := [],
    finishedAt := fun _ => true }

/-- A session whose capture loop never acknowledges the stop request. -/
def stuckSession : Session :=
  { elapsedSeconds := 0, recording := true, framePaths := [],
    finishedAt := fun _ => false }

/-- The fresh loop state at loop start. -/
def loop0 : LoopState :=
  { elapsedSeconds := 0, recording := true, framePaths := [],
    logs := [], sleeps := 0 }

/-! Helper lemmas. -/

theorem waitFrom_bounds {finishedAt : ℕ → Bool} :
    ∀ {remaining count w : ℕ}, waitFrom finishedAt count remaining = some w →
      count ≤ w ∧ w < count + remaining := by
  intro remaining
  induction remaining with
  | zero => intro count w h; simp [waitFrom] at h
  | succ r ih =>
    intro count w h
    rw [waitFrom] at h
    by_cases hf : finishedAt count = true
    · rw [if_pos hf] at h
      cases h
      exact ⟨le_refl _, by omega⟩
    · rw [if_neg hf] at h
      obtain ⟨h1, h2⟩ := ih h
      exact ⟨by omega, by omega⟩

theorem nextPathFrom_counter_gt {dir : String} {t : Template}
    {fsExists : String → Bool} :
    ∀ {fuel counter : ℕ} {p : String} {k : ℕ},
      nextPathFrom dir t fsExists counter fuel = some (p, k) → counter < k := by
  intro fuel
  induction fuel with
  | zero => intro counter p k h; simp [nextPathFrom] at h
  | succ f ih =>
    intro counter p k h
    rw [nextPathFrom] at h
    by_cases hc : t.subst (counter + 1) = t.raw ∨
        fsExists (joinPath dir (t.subst (counter + 1))) = false
    · simp only [if_pos hc] at h
      cases h
      omega
    · simp only [if_neg hc] at h
      have := ih h
      omega

/-- Batteries' `Rat.floor` agrees with the floor of the `FloorRing`
instance on `ℚ`. -/
theorem ratFloor_eq_intFloor (q : ℚ) : Rat.floor q = ⌊q⌋ := by
  rw [Rat.floor_def', Rat.floor_def]

theorem floor_ten_fifths : Rat.floor ((10 : ℚ) / 5) = 2 := by
  rw [ratFloor_eq_intFloor,
    show (10 : ℚ) / 5 = ((10 : ℕ) : ℚ) / ((5 : ℕ) : ℚ) by norm_num,
    Rat.floor_natCast_div_natCast]
  norm_num

theorem floor_six_thirds : Rat.floor ((6 : ℚ) / 3) = 2 := by
  rw [ratFloor_eq_intFloor,
    show (6 : ℚ) / 3 = ((6 : ℕ) : ℚ) / ((3 : ℕ) : ℚ) by norm_num,
    Rat.floor_natCast_div_natCast]
  norm_num

theorem floor_three_tenths : Rat.floor ((3 : ℚ) / 10) = 0 := by
  rw [ratFloor_eq_intFloor,
    show (3 : ℚ) / 10 = ((3 : ℕ) : ℚ) / ((10 : ℕ) : ℚ) by norm_num,
    Rat.floor_natCast_div_natCast]
  norm_num

theorem floor_one_hundredth : Rat.floor ((1 : ℚ) / 100) = 0 := by
  rw [ratFloor_eq_intFloor,
    show (1 : ℚ) / 100 = ((1 : ℕ) : ℚ) / ((100 : ℕ) : ℚ) by norm_num,
    Rat.floor_natCast_div_natCast]
  norm_num

theorem computeFps_six_three : computeFps 6 3 = 2 := by
  have hp : ¬ ((6 : ℚ) / 3 < 0) := by norm_num
  simp [computeFps, pyInt, floor_six_thirds, hp]

/-! Claim theorems. -/

/-- C1: the specification says every frame in `framePaths` is written to
the encoder, the first frame included.  Evaluating the code on the
specification's own end-to-end scenario (6 frames over 3 time units): the
frame-writing loop `for i in range(1, len(paths))` starts at index 1, so
only the 5 frames `f2.png ... f6.png` are written; `paths[0]` is read only
for the frame size.  In general the code writes the tail of `framePaths`,
one frame fewer than the claim states. -/
theorem c1_first_frame_dropped :
    (stopCore isz0 0 sessionSix "out-1.mp4").result =
      .wrote 0 "out-1.mp4" 2 (64, 48)
        ["f2.png", "f3.png", "f4.png", "f5.png", "f6.png"] ∧
    (framesWritten sixFrames).length = sixFrames.length - 1 := by
  have hfw : framesWritten
      ["f1.png", "f2.png", "f3.png", "f4.png", "f5.png", "f6.png"] =
      ["f2.png", "f3.png", "f4.png", "f5.png", "f6.png"] := by decide
  have h3 : (3 : ℚ) ≠ 0 := by norm_num
  refine ⟨?_, by decide⟩
  simp [stopCore, sessionSix, sixFrames, isz0, waitFinished, waitFrom, h3,
    computeFps_six_three, hfw]

/-- C2 counterexample: `Screen Record Start` called while no browser is
attached is claimed to be a no-op that creates no session and returns no
handle.  On the code, a call with `browserAttached = false` on an empty
registry grows the registry to length 1 and returns handle 0 (the source
has no browser-attachment check at all). -/
theorem c2_counterexample :
    (capture_screenshots (some []) false).registry.length ≠
      ([] : List Session).length ∧
    (capture_screenshots (some []) false).handle = 0 ∧
    (capture_screenshots none false).registry.length = 1 := by
  refine ⟨by decide, rfl, by decide⟩

/-- C2 amended: `Screen Record Start` performs no browser/target check;
for every registry state and every attachment state it appends one fresh
session, returns the new entry's position as the handle, and behaves
identically whether or not a browser is attached. -/
theorem c2_start_ignores_browser :
    ∀ (r : Option (List Session)) (b : Bool),
      (capture_screenshots r b).registry = r.getD [] ++ [initialSession] ∧
      (capture_screenshots r b).handle = (r.getD []).length ∧
      capture_screenshots r b = capture_screenshots r true := by
  intro r b
  refine ⟨rfl, ?_, rfl⟩
  simp [capture_screenshots]

/-- C2 amended witness: the amended start behaviour instantiated at a
one-session registry with no browser attached. -/
theorem c2_start_ignores_browser_witness :
    (capture_screenshots (some [initialSession]) false).registry =
      (some [initialSession] : Option (List Session)).getD [] ++
        [initialSession] ∧
    (capture_screenshots (some [initialSession]) false).handle =
      ((some [initialSession] : Option (List Session)).getD []).length ∧
    capture_screenshots (some [initialSession]) false =
      capture_screenshots (some [initialSession]) true :=
  c2_start_ignores_browser (some [initialSession]) false

/-- C4: for a session reaching assembly with `n` frames and elapsed time
`t > 0`, the encoder fps is `floor(n / t)`, forced to 1 when that floor is
below 1 or `n < 5`; in particular 10 frames over 5 time units give fps 2,
3 frames over 10 give fps 1, and 1 frame over 100 gives fps 1. -/
theorem c4_fps :
    (∀ (n : ℕ) (t : ℚ), 0 < n → 0 < t →
      computeFps n t =
        if Rat.floor ((n : ℚ) / t) < 1 ∨ n < 5 then 1
        else Rat.floor ((n : ℚ) / t)) ∧
    computeFps 10 5 = 2 ∧ computeFps 3 10 = 1 ∧ computeFps 1 100 = 1 := by
  refine ⟨?_, ?_, ?_, ?_⟩
  · intro n t _hn ht
    have h0 : ¬ ((n : ℚ) / t < 0) :=
      not_lt.mpr (div_nonneg (by positivity) ht.le)
    simp [computeFps, pyInt, h0, ratFloor_eq_intFloor]
  · have hp : ¬ ((10 : ℚ) / 5 < 0) := by norm_num
    simp [computeFps, pyInt, floor_ten_fifths, hp]
  · simp [computeFps, pyInt, floor_three_tenths]
  · simp [computeFps, pyInt, floor_one_hundredth]

/-- C4 witness: the general clause of `c4_fps` instantiated at 10 frames
over 5 time units. -/
theorem c4_fps_witness :
    computeFps 10 5 =
      if Rat.floor ((10 : ℚ) / 5) < 1 ∨ (10 : ℕ) < 5 then 1
      else Rat.floor ((10 : ℚ) / 5) :=
  c4_fps.1 10 5 (by decide) (by decide)

/-- C9 counterexample: the claim says a failed capture attempt makes the
loop log and pause, and that `elapsedSeconds` is updated only on success.
On the code, when `driver.save_screenshot` returns `False` (a failed
capture) the iteration appends nothing but still sets
`elapsedSeconds = now - start` (here `7 - 2 = 5`), emits no log message and
does not pause. -/
theorem c9_counterexample :
    (loop_capture_step 7 2 "p1.png" (.returned false) loop0).elapsedSeconds
      = 5 ∧
    (loop_capture_step 7 2 "p1.png" (.returned false) loop0).framePaths
      = [] ∧
    (loop_capture_step 7 2 "p1.png" (.returned false) loop0).logs = [] ∧
    (loop_capture_step 7 2 "p1.png" (.returned false) loop0).sleeps = 0 := by
  refine ⟨?_, rfl, rfl, rfl⟩
  simp [loop_capture_step, loop0]
  norm_num

/-- C9 amended: in every capture-loop iteration, a capture attempt that
raises an exception logs one informational message and pauses for the
fixed delay, leaving frames and elapsed time untouched; a capture
returning success appends the path and sets
`elapsedSeconds = now - loopStart`; a capture returning failure without
raising appends nothing and neither logs nor pauses, but still sets
`elapsedSeconds = now - loopStart`.  No iteration changes the recording
flag, so no capture outcome terminates the loop. -/
theorem c9_loop_step :
    ∀ (nowTime startTime : ℚ) (path : String) (st : LoopState),
      (loop_capture_step nowTime startTime path .raised st =
        { st with
          logs := st.logs ++ ["Cannot capture screenshots"],
          sleeps := st.sleeps + 1 }) ∧
      (loop_capture_step nowTime startTime path (.returned true) st =
        { st with
          framePaths := st.framePaths ++ [path],
          elapsedSeconds := nowTime - startTime }) ∧
      (loop_capture_step nowTime startTime path (.returned false) st =
        { st with elapsedSeconds := nowTime - startTime }) ∧
      ∀ a : CaptureAttempt,
        (loop_capture_step nowTime startTime path a st).recording =
          st.recording := by
  intro nowTime startTime path st
  refine ⟨rfl, by simp [loop_capture_step], rfl, ?_⟩
  intro a
  cases a <;> rfl

/-- C9 amended witness: the three iteration cases instantiated at the
fresh loop state with `now = 7` and `loopStart = 2`. -/
theorem c9_loop_step_witness :
    loop_capture_step 7 2 "p1.png" .raised loop0 =
      { loop0 with
        logs := loop0.logs ++ ["Cannot capture screenshots"],
        sleeps := loop0.sleeps + 1 } ∧
    loop_capture_step 7 2 "p1.png" (.returned true) loop0 =
      { loop0 with
        framePaths := loop0.framePaths ++ ["p1.png"],
        elapsedSeconds := 7 - 2 } ∧
    (loop_capture_step 7 2 "p1.png" (.returned false) loop0).recording =
      loop0.recording :=
  ⟨(c9_loop_step 7 2 "p1.png" loop0).1,
   (c9_loop_step 7 2 "p1.png" loop0).2.1,
   (c9_loop_step 7 2 "p1.png" loop0).2.2.2 (.returned false)⟩

/-- C3: the stop keyword's wait is bounded: at most 5 polls of the
`finished` flag with one unit of sleep between polls; if the flag is still
false after the budget, the call returns normally (`timedOut`, not a
raise) having logged the give-up message and produces no video; a video is
written only when the flag was observed within the budget AND
`elapsedSeconds != 0` AND `framePaths` is non-empty, the degenerate
finished case being skipped with log output only. -/
theorem c3_bounded_wait :
    ∀ (imageSize : String → ℕ × ℕ) (handle : ℤ) (s : Session)
      (videoPath : String),
      (stopCore imageSize handle s videoPath).polls ≤ 5 ∧
      (stopCore imageSize handle s videoPath).sleeps ≤ 5 ∧
      (waitFinished s.finishedAt = none →
        (stopCore imageSize handle s videoPath).result = .timedOut ∧
        ("screenshots for index " ++ toString handle ++ " cannot stop") ∈
          (stopCore imageSize handle s videoPath).logs) ∧
      (∀ (w : ℕ) (p : String) (fps : ℤ) (sz : ℕ × ℕ) (fr : List String),
        (stopCore imageSize handle s videoPath).result = .wrote w p fps sz fr →
        waitFinished s.finishedAt = some w ∧
        s.elapsedSeconds ≠ 0 ∧ s.framePaths ≠ []) ∧
      (∀ w : ℕ, waitFinished s.finishedAt = some w →
        s.elapsedSeconds = 0 ∨ s.framePaths = [] →
        (stopCore imageSize handle s videoPath).result = .skipped w) := by
  intro imageSize handle s videoPath
  rcases hw : waitFinished s.finishedAt with _ | w
  · refine ⟨?_, ?_, ?_, ?_, ?_⟩
    · simp [stopCore, hw]
    · simp [stopCore, hw]
    · intro _
      simp [stopCore, hw]
    · intro w p fps sz fr hres
      simp [stopCore, hw] at hres
    · intro w hws
      exact Option.noConfusion hws
  · have hwlt : w < 5 := by
      have := waitFrom_bounds hw
      omega
    by_cases hcond : s.elapsedSeconds ≠ 0 ∧ 0 < s.framePaths.length
    · refine ⟨?_, ?_, ?_, ?_, ?_⟩
      · simp only [stopCore, hw, if_pos hcond]
        omega
      · simp only [stopCore, hw, if_pos hcond]
        omega
      · intro hnone
        exact Option.noConfusion hnone
      · intro w' p fps sz fr hres
        simp only [stopCore, hw, if_pos hcond] at hres
        cases hres
        exact ⟨rfl, hcond.1, List.length_pos.mp hcond.2⟩
      · intro w' hws hdeg
        exfalso
        rcases hdeg with h0 | hnil
        · exact hcond.1 h0
        · rw [hnil] at hcond
          simp at hcond
    · refine ⟨?_, ?_, ?_, ?_, ?_⟩
      · simp only [stopCore, hw, if_neg hcond]
        omega
      · simp only [stopCore, hw, if_neg hcond]
        omega
      · intro hnone
        exact Option.noConfusion hnone
      · intro w' p fps sz fr hres
        simp only [stopCore, hw, if_neg hcond] at hres
        exact StopResult.noConfusion hres
      · intro w' hws _
        injection hws with h1
        subst h1
        simp only [stopCore, hw, if_neg hcond]

/-- C3 witness: a session whose loop never acknowledges the stop request
makes the stop keyword time out within the budget, log the give-up
message and produce no video. -/
theorem c3_bounded_wait_witness :
    (stopCore isz0 0 stuckSession "v").polls ≤ 5 ∧
    (stopCore isz0 0 stuckSession "v").result = .timedOut ∧
    ("screenshots for index " ++ toString (0 : ℤ) ++ " cannot stop") ∈
      (stopCore isz0 0 stuckSession "v").logs := by
  have h := c3_bounded_wait isz0 0 stuckSession "v"
  have hnone : waitFinished stuckSession.finishedAt = none := rfl
  exact ⟨h.1, (h.2.2.1 hnone).1, (h.2.2.1 hnone).2⟩

/-- C5 counterexample: under the specification's handle model (dense
non-negative integers assigned by Start), `-1` is not a valid in-range
handle, so the claim requires `Stop(-1)` to fail fatally with the registry
unchanged.  On the code, `Stop(-1)` on a one-session registry passes the
`int(index) >= len(queue)` validation, flips that session's recording
flag (the registry changes) and proceeds to the wait, returning normally
(`skipped`, not a raise). -/
theorem c5_counterexample :
    (stop_recording_and_save_to_mp4 isz0 (some [cexSession])
        (some (-1)) "v").result = .skipped 0 ∧
    (stop_recording_and_save_to_mp4 isz0 (some [cexSession])
        (some (-1)) "v").registry =
      some [{ cexSession with recording := false }] ∧
    ({ cexSession with recording := false }).recording ≠
      cexSession.recording := by
  have hval : ¬ ((([cexSession] : List Session).length : ℤ) ≤ -1) := by decide
  have hget : pyGet [cexSession] (-1) = some cexSession := by
    simp [pyGet]
  have hidx : pyIdx ([cexSession] : List Session).length (-1) = 0 := by decide
  have hcore : (stopCore isz0 (-1) cexSession "v").result = .skipped 0 := by
    have h0 : ¬ (cexSession.elapsedSeconds ≠ 0 ∧
        0 < cexSession.framePaths.length) := by
      simp [cexSession]
    have hw : waitFinished cexSession.finishedAt = some 0 := rfl
    simp only [stopCore, hw, if_neg h0]
  refine ⟨?_, ?_, by decide⟩
  · simp only [stop_recording_and_save_to_mp4, if_neg hval, hget, hidx]
    exact hcore
  · simp only [stop_recording_and_save_to_mp4, if_neg hval, hget, hidx]
    rfl

/-- C5 amended: the validation of the stop keyword rejects exactly an
uninitialised registry, a `None` handle, and `int(handle) >= len(registry)`
— each failing fatally before any recording flag is set, with zero polls,
zero sleeps and the registry unchanged; a handle below `-len(registry)`
also fails fatally before any wait, via an index error at the flag
assignment (registry still unchanged).  Negative handles in
`[-len(registry), -1]` are NOT rejected (see the negative-index claim). -/
theorem c5_validation :
    (∀ (imageSize : String → ℕ × ℕ) (handle : Option ℤ) (videoPath : String),
      stop_recording_and_save_to_mp4 imageSize none handle videoPath =
        { registry := none, result := .raisedQueueNotInit,
          sleeps := 0, polls := 0, logs := [] }) ∧
    (∀ (imageSize : String → ℕ × ℕ) (q : List Session) (videoPath : String),
      stop_recording_and_save_to_mp4 imageSize (some q) none videoPath =
        { registry := some q, result := .raisedInvalidIndex,
          sleeps := 0, polls := 0, logs := [] }) ∧
    (∀ (imageSize : String → ℕ × ℕ) (q : List Session) (h : ℤ)
      (videoPath : String), (q.length : ℤ) ≤ h →
      stop_recording_and_save_to_mp4 imageSize (some q) (some h) videoPath =
        { registry := some q, result := .raisedInvalidIndex,
          sleeps := 0, polls := 0, logs := [] }) ∧
    (∀ (imageSize : String → ℕ × ℕ) (q : List Session) (h : ℤ)
      (videoPath : String), h + (q.length : ℤ) < 0 →
      stop_recording_and_save_to_mp4 imageSize (some q) (some h) videoPath =
        { registry := some q, result := .raisedIndexError,
          sleeps := 0, polls := 0, logs := [] }) := by
  refine ⟨fun _ h _ => by cases h <;> rfl, fun _ _ _ => rfl, ?_, ?_⟩
  · intro imageSize q h videoPath hle
    simp only [stop_recording_and_save_to_mp4, if_pos hle]
  · intro imageSize q h videoPath hlt
    have h1 : ¬ ((q.length : ℤ) ≤ h) := by omega
    have h2 : h < 0 := by omega
    have h3 : (q.length : ℤ) + h < 0 := by omega
    simp only [stop_recording_and_save_to_mp4, if_neg h1, pyGet,
      if_pos h2, if_pos h3]

/-- C5 witness: the rejected cases instantiated concretely — a stop on an
empty (but initialised) registry with handle 0, and a stop with handle
`-2` on a one-session registry. -/
theorem c5_validation_witness :
    stop_recording_and_save_to_mp4 isz0 (some []) (some 0) "v" =
      { registry := some [], result := .raisedInvalidIndex,
        sleeps := 0, polls := 0, logs := [] } ∧
    stop_recording_and_save_to_mp4 isz0 (some [cexSession]) (some (-2)) "v" =
      { registry := some [cexSession], result := .raisedIndexError,
        sleeps := 0, polls := 0, logs := [] } :=
  ⟨c5_validation.2.2.1 isz0 [] 0 "v" (by decide),
   c5_validation.2.2.2 isz0 [cexSession] (-2) "v" (by decide)⟩

/-- After one more start, the registry is the previous registry with one
fresh session appended. -/
theorem regN_succ (n : ℕ) : regN (n + 1) = regN n ++ [initialSession] := rfl

theorem regN_length (n : ℕ) : (regN n).length = n := by
  induction n with
  | zero => rfl
  | succ m ih => rw [regN_succ, List.length_append, ih]; rfl

theorem regN_getElem? {n h : ℕ} (hh : h < n) :
    (regN n)[h]? = some initialSession := by
  induction n with
  | zero => omega
  | succ m ih =>
    rw [regN_succ]
    rcases Nat.lt_or_ge h m with hlt | hge
    · rw [List.getElem?_append_left (by rw [regN_length]; exact hlt)]
      exact ih hlt
    · have hm : h = m := by omega
      subst hm
      have hc := List.getElem?_concat_length (regN h) initialSession
      rw [regN_length] at hc
      exact hc

theorem startN_handle_succ (n : ℕ) :
    (startN (n + 1)).2 = (startN n).2 ++ [(regN n).length] := by
  have : (capture_screenshots (startN n).1 true).handle = (regN n).length := by
    simp [capture_screenshots, regN]
  rw [← this]
  rfl

theorem startN_handles (n : ℕ) : (startN n).2 = List.range n := by
  induction n with
  | zero => rfl
  | succ m ih =>
    rw [startN_handle_succ, ih, regN_length, List.range_succ]

/-- C6: `N >= 1` sequential start calls from process start return the
handles `0, 1, ..., N-1` in call order, each handle being the session's
registry position at creation; the registry is append-only, so the entry
at any handle position is unchanged by all later starts. -/
theorem c6_handles (N : ℕ) (hN : 1 ≤ N) :
    (startN N).2 = List.range N ∧
    ∀ k, N ≤ k → ∀ h, h < N → (regN k)[h]? = (regN N)[h]? := by
  refine ⟨startN_handles N, ?_⟩
  intro k hk h hh
  rw [regN_getElem? (lt_of_lt_of_le hh hk), regN_getElem? hh]

/-- C6 witness: three starts return handles `[0, 1, 2]`, and the entry at
handle 1 is the same after five starts as after three. -/
theorem c6_handles_witness :
    (startN 3).2 = List.range 3 ∧ (regN 5)[1]? = (regN 3)[1]? :=
  ⟨(c6_handles 3 (by decide)).1,
   (c6_handles 3 (by decide)).2 5 (by decide) 1 (by decide)⟩

/-- C7: path allocation.  First conjunct: for a template the formatting of
which leaves unchanged (no placeholder), the search returns the joined raw
path at the very first candidate, for every counter value and every file
system — so repeated calls always return the identical path.  Second
conjunct: for a template whose formatting differs from the raw string on
the probed range (a placeholder), the search returns the path of the FIRST
counter value after the current one whose substituted path does not exist,
all skipped candidates existing on the file system. -/
theorem c7_next_path :
    (∀ (dir : String) (t : Template) (fsExists : String → Bool) (c fuel : ℕ),
      t.subst (c + 1) = t.raw →
      nextPathFrom dir t fsExists c (fuel + 1) =
        some (joinPath dir t.raw, c + 1)) ∧
    (∀ (dir : String) (t : Template) (fsExists : String → Bool) (c m fuel : ℕ),
      c < m → m ≤ c + fuel →
      (∀ k, k ≤ m → c < k → t.subst k ≠ t.raw) →
      fsExists (joinPath dir (t.subst m)) = false →
      ∃ k, c < k ∧ k ≤ m ∧
        nextPathFrom dir t fsExists c fuel =
          some (joinPath dir (t.subst k), k) ∧
        fsExists (joinPath dir (t.subst k)) = false ∧
        ∀ j, c < j → j < k → fsExists (joinPath dir (t.subst j)) = true) := by
  constructor
  · intro dir t fsExists c fuel h
    simp only [nextPathFrom]
    rw [if_pos (Or.inl h), h]
  · intro dir t fsExists c m fuel
    induction fuel generalizing c with
    | zero => intro hcm hmle _ _; omega
    | succ f ih =>
      intro hcm hmle hne hexm
      by_cases hex : fsExists (joinPath dir (t.subst (c + 1))) = false
      · refine ⟨c + 1, by omega, by omega, ?_, hex, ?_⟩
        · simp only [nextPathFrom]
          rw [if_pos (Or.inr hex)]
        · intro j h1 h2
          omega
      · have hextrue : fsExists (joinPath dir (t.subst (c + 1))) = true := by
          revert hex
          cases fsExists (joinPath dir (t.subst (c + 1))) <;> simp
        have hcm1 : c + 1 < m := by
          rcases Nat.lt_or_ge (c + 1) m with hlt | hge
          · exact hlt
          · exfalso
            have hm1 : m = c + 1 := by omega
            rw [hm1, hextrue] at hexm
            cases hexm
        have hcond : ¬ (t.subst (c + 1) = t.raw ∨
            fsExists (joinPath dir (t.subst (c + 1))) = false) := by
          intro hor
          rcases hor with hraw | hfalse
          · exact hne (c + 1) (by omega) (by omega) hraw
          · exact hex hfalse
        obtain ⟨k, hk1, hk2, hk3, hk4, hk5⟩ :=
          ih (c + 1) hcm1 (by omega)
            (fun k hkm hck => hne k hkm (by omega)) hexm
        refine ⟨k, by omega, hk2, ?_, hk4, ?_⟩
        · simp only [nextPathFrom]
          rw [if_neg hcond]
          exact hk3
        · intro j hj1 hj2
          rcases Nat.lt_or_ge (c + 1) j with hgt | hle
          · exact hk5 j hgt hj2
          · have : j = c + 1 := by omega
            rw [this]
            exact hextrue

/-- C7 witness: the plain template always yields `d/shot.png`, and the
indexed template on a file system already holding `s1.png` and `s2.png`
yields the first free candidate `d/s3.png` at counter value 3. -/
theorem c7_next_path_witness :
    nextPathFrom "d" tplPlain fsTwo 0 3 = some (joinPath "d" tplPlain.raw, 1) ∧
    ∃ k, 0 < k ∧ k ≤ 3 ∧
      nextPathFrom "d" tplIndexed fsTwo 0 5 =
        some (joinPath "d" (tplIndexed.subst k), k) ∧
      fsTwo (joinPath "d" (tplIndexed.subst k)) = false ∧
      ∀ j, 0 < j → j < k → fsTwo (joinPath "d" (tplIndexed.subst j)) = true :=
  ⟨c7_next_path.1 "d" tplPlain fsTwo 0 2 rfl,
   c7_next_path.2 "d" tplIndexed fsTwo 0 3 5 (by decide) (by decide)
     (by decide) (by decide)⟩

/-- C8 counterexample: the claim says the plain-screenshot counter is
process-wide, monotonically increasing and never reset, successive
allocations using strictly increasing counter values.  On the code the
plain-screenshot search uses a per-call local counter: two successive
allocations with the file never actually created both use counter value 1
and return the same path, and `1 < 1` fails. -/
theorem c8_counterexample :
    (get_screenshot_path "d" tplIndexed fsNone 9 allocInit).1 =
      some ("d/s1.png", 1) ∧
    (get_screenshot_path "d" tplIndexed fsNone 9
        (get_screenshot_path "d" tplIndexed fsNone 9 allocInit).2).1 =
      some ("d/s1.png", 1) ∧
    ¬ ((1 : ℕ) < 1) := by
  exact ⟨by decide, by decide, by omega⟩

/-- C8 amended: the recording-frame counter (`g_screenshots_index`) and the
finished-video counter (`g_video_index`) are process-wide, start at 0 on
first use, are incremented before each use (every successful allocation
returns a counter value strictly greater than the stored one, which then
becomes the stored value), are never reset or decremented, and are
mutually independent; the plain-screenshot allocation, by contrast, uses a
per-call local counter that restarts at 0 on every call and never touches
the process-wide state, relying on file existence alone for uniqueness. -/
theorem c8_counters :
    (∀ (dir : String) (t : Template) (fsExists : String → Bool)
      (fuel : ℕ) (st : AllocState),
      (get_screenshot_path dir t fsExists fuel st).2 = st ∧
      (get_screenshot_path dir t fsExists fuel st).1 =
        nextPathFrom dir t fsExists 0 fuel) ∧
    (∀ (dir : String) (t : Template) (fsExists : String → Bool)
      (fuel : ℕ) (st : AllocState) (p : String) (k : ℕ),
      (get_video_image_path dir t fsExists fuel st).1 = some (p, k) →
      st.gScreenshotsIndex.getD 0 < k ∧
      (get_video_image_path dir t fsExists fuel st).2 =
        { st with gScreenshotsIndex := some k }) ∧
    (∀ (dir : String) (t : Template) (fsExists : String → Bool)
      (fuel : ℕ) (st : AllocState),
      (get_video_image_path dir t fsExists fuel st).2.gVideoIndex =
        st.gVideoIndex) ∧
    (∀ (dir : String) (t : Template) (fsExists : String → Bool)
      (fuel : ℕ) (st : AllocState) (p : String) (k : ℕ),
      (get_video_path dir t fsExists fuel st).1 = some (p, k) →
      st.gVideoIndex.getD 0 < k ∧
      (get_video_path dir t fsExists fuel st).2 =
        { st with gVideoIndex := some k }) ∧
    (∀ (dir : String) (t : Template) (fsExists : String → Bool)
      (fuel : ℕ) (st : AllocState),
      (get_video_path dir t fsExists fuel st).2.gScreenshotsIndex =
        st.gScreenshotsIndex) := by
  refine ⟨fun _ _ _ _ _ => ⟨rfl, rfl⟩, ?_, ?_, ?_, ?_⟩
  · intro dir t fsExists fuel st p k hres
    rcases hn : nextPathFrom dir t fsExists (st.gScreenshotsIndex.getD 0) fuel
      with _ | pk
    · simp [get_video_image_path, hn] at hres
    · obtain ⟨p', k'⟩ := pk
      simp only [get_video_image_path, hn] at hres ⊢
      obtain ⟨hp, hk⟩ := Prod.mk.injEq .. ▸ Option.some.injEq .. ▸ hres
      subst hk
      exact ⟨nextPathFrom_counter_gt hn, rfl⟩
  · intro dir t fsExists fuel st
    rcases hn : nextPathFrom dir t fsExists (st.gScreenshotsIndex.getD 0) fuel
      with _ | pk
    · simp [get_video_image_path, hn]
    · obtain ⟨p', k'⟩ := pk
      simp [get_video_image_path, hn]
  · intro dir t fsExists fuel st p k hres
    rcases hn : nextPathFrom dir t fsExists (st.gVideoIndex.getD 0) fuel
      with _ | pk
    · simp [get_video_path, hn] at hres
    · obtain ⟨p', k'⟩ := pk
      simp only [get_video_path, hn] at hres ⊢
      obtain ⟨hp, hk⟩ := Prod.mk.injEq .. ▸ Option.some.injEq .. ▸ hres
      subst hk
      exact ⟨nextPathFrom_counter_gt hn, rfl⟩
  · intro dir t fsExists fuel st
    rcases hn : nextPathFrom dir t fsExists (st.gVideoIndex.getD 0) fuel
      with _ | pk
    · simp [get_video_path, hn]
    · obtain ⟨p', k'⟩ := pk
      simp [get_video_path, hn]

/-- C8 witness: a first frame allocation from the uninitialised state uses
counter value 1 > 0 and stores 1 as the new `g_screenshots_index`. -/
theorem c8_counters_witness :
    allocInit.gScreenshotsIndex.getD 0 < 1 ∧
    (get_video_image_path "d" tplIndexed fsNone 9 allocInit).2 =
      { allocInit with gScreenshotsIndex := some 1 } :=
  c8_counters.2.1 "d" tplIndexed fsNone 9 allocInit "d/s1.png" 1 (by decide)

/-- The post-validation core of the stop keyword never raises: its result
is always a timeout, a skip or a write. -/
theorem stopCore_not_raised (imageSize : String → ℕ × ℕ) (handle : ℤ)
    (s : Session) (videoPath : String) :
    (stopCore imageSize handle s videoPath).result ≠ .raisedQueueNotInit ∧
    (stopCore imageSize handle s videoPath).result ≠ .raisedInvalidIndex ∧
    (stopCore imageSize handle s videoPath).result ≠ .raisedIndexError := by
  rcases hw : waitFinished s.finishedAt with _ | w
  · simp [stopCore, hw]
  · by_cases hcond : s.elapsedSeconds ≠ 0 ∧ 0 < s.framePaths.length
    · simp [stopCore, hw, if_pos hcond]
    · simp [stopCore, hw, if_neg hcond]

/-- C10: for a registry of length `n >= 1` and any handle
`-n <= h <= -1`, the stop keyword's validation (which only rejects `None`
and `int(handle) >= n`) passes; the session at position `n + h` exists,
its recording flag is set to false in the returned registry, and no
exception is raised — in particular `Stop(-1)` stops the most recently
started session. -/
theorem c10_negative_index :
    ∀ (imageSize : String → ℕ × ℕ) (q : List Session) (h : ℤ)
      (videoPath : String),
      -(q.length : ℤ) ≤ h → h < 0 →
      ∃ s, pyGet q h = some s ∧
        q[((q.length : ℤ) + h).toNat]? = some s ∧
        (stop_recording_and_save_to_mp4 imageSize (some q) (some h)
            videoPath).registry =
          some (q.set ((q.length : ℤ) + h).toNat
            { s with recording := false }) ∧
        (stop_recording_and_save_to_mp4 imageSize (some q) (some h)
            videoPath).result ≠ .raisedQueueNotInit ∧
        (stop_recording_and_save_to_mp4 imageSize (some q) (some h)
            videoPath).result ≠ .raisedInvalidIndex ∧
        (stop_recording_and_save_to_mp4 imageSize (some q) (some h)
            videoPath).result ≠ .raisedIndexError := by
  intro imageSize q h videoPath hge hlt
  have hnonneg : 0 ≤ (q.length : ℤ) + h := by omega
  have hpos : ((q.length : ℤ) + h).toNat < q.length := by omega
  have hval : ¬ ((q.length : ℤ) ≤ h) := by omega
  have hpg : pyGet q h = q[((q.length : ℤ) + h).toNat]? := by
    simp only [pyGet, if_pos hlt, if_neg (not_lt.mpr hnonneg)]
    exact List.get?_eq_getElem? ..
  have hidx : pyIdx q.length h = ((q.length : ℤ) + h).toNat := by
    simp [pyIdx, hlt]
  obtain ⟨s, hs⟩ : ∃ s, q[((q.length : ℤ) + h).toNat]? = some s :=
    ⟨q[((q.length : ℤ) + h).toNat], List.getElem?_eq_getElem hpos⟩
  refine ⟨s, by rw [hpg]; exact hs, hs, ?_, ?_, ?_, ?_⟩
  · simp only [stop_recording_and_save_to_mp4, if_neg hval, hpg, hs, hidx]
  · simp only [stop_recording_and_save_to_mp4, if_neg hval, hpg, hs, hidx]
    exact (stopCore_not_raised imageSize h s videoPath).1
  · simp only [stop_recording_and_save_to_mp4, if_neg hval, hpg, hs, hidx]
    exact (stopCore_not_raised imageSize h s videoPath).2.1
  · simp only [stop_recording_and_save_to_mp4, if_neg hval, hpg, hs, hidx]
    exact (stopCore_not_raised imageSize h s videoPath).2.2

/-- C10 witness: `Stop(-1)` on a two-session registry resolves to the
session at position 1, the most recently started one. -/
theorem c10_negative_index_witness :
    ∃ s, pyGet [cexSession, sessionSix] (-1 : ℤ) = some s ∧
      (([cexSession, sessionSix] : List Session))[((([cexSession,
          sessionSix] : List Session).length : ℤ) + (-1)).toNat]? = some s ∧
      (stop_recording_and_save_to_mp4 isz0 (some [cexSession, sessionSix])
          (some (-1)) "v").registry =
        some ([cexSession, sessionSix].set
          ((([cexSession, sessionSix] : List Session).length : ℤ) +
            (-1)).toNat { s with recording := false }) ∧
      (stop_recording_and_save_to_mp4 isz0 (some [cexSession, sessionSix])
          (some (-1)) "v").result ≠ .raisedQueueNotInit ∧
      (stop_recording_and_save_to_mp4 isz0 (some [cexSession, sessionSix])
          (some (-1)) "v").result ≠ .raisedInvalidIndex ∧
      (stop_recording_and_save_to_mp4 isz0 (some [cexSession, sessionSix])
          (some (-1)) "v").result ≠ .raisedIndexError :=
  c10_negative_index isz0 [cexSession, sessionSix] (-1) "v"
    (by decide) (by decide)

end Screenshot
